import Mathlib

/-!
Shallow embedding of the Food-monitoring-System repository (three Express/Mongoose
services) and verification of its specification claims.

Modelling conventions:
- Timestamps are integers (milliseconds since the epoch).  A `moment(d)` value built
  from a possibly-absent date is modelled by `momentOf`: `moment(undefined)` equals
  the current instant, exactly as the moment.js library behaves.
- `moment.diff(_, "hours")` truncates the hour difference toward zero; this is
  `Int.tdiv` on the millisecond difference.
- The MongoDB record is the `FoodItem` structure: the union of the three schemas
  (`complianceStatus` appears only in FoodRegulatoryComplianceSystem.js,
  `qualityIssue` only in FoodQualityAlerts.js; unused fields are simply ignored by
  the other services).
- Alert strings pushed by the checkers are modelled by the `Alert` inductive, whose
  render functions below reproduce the exact source messages; the constructor
  arguments carry the data interpolated into those messages.
- The HTTP handlers are modelled as pure functions from the record looked up (or
  merged) by Mongoose to a response inductive; each response constructor records
  the HTTP status and body fields the handler sends.
-/

/-- Milliseconds per hour, the unit conversion used by moment.diff(_, "hours"). -/
def msPerHour : Int := 3600000

/-- A stored food record: union of the three Mongoose schemas. -/
structure FoodItem where
  foodItem : String
  origin : String
  qualityCheckDate : Int
  freshnessExpiryDate : Option Int
  safetyCertifications : List String
  contaminationRisk : Bool
  traceId : String
  complianceStatus : Bool
  qualityIssue : Bool
  lastUpdated : Int
deriving Repr, DecidableEq

/-- moment(d) where d may be absent: moment(undefined) is the current instant. -/
def momentOf (d : Option Int) (now : Int) : Int := d.getD now

/-- Message returned by checkRegulatoryCompliance when a required certification is missing. -/
def nonCompliantMsg : String := "Food item does not meet regulatory compliance standards."

/-- Message returned by checkRegulatoryCompliance on contamination risk. -/
def contaminationViolationMsg : String :=
  "Food item has a contamination risk, which violates food safety standards."

/-- Message returned by checkRegulatoryCompliance on a compliant record. -/
def compliesMsg : String := "Food item complies with all regulatory standards."

/-- The required certifications list shared by FoodRegulatoryComplianceSystem.js and
FoodQualityAlerts.js. -/
def requiredCertifications : List String :=
  [("FDA Approved"), ("FSSAI Certified"), ("ISO 22000")]

/-- FoodRegulatoryComplianceSystem.js, checkRegulatoryCompliance (lines 32-52). -/
def checkRegulatoryCompliance (item : FoodItem) : String :=
  let hasRequiredCertifications :=
    requiredCertifications.all (fun cert => item.safetyCertifications.contains cert)
  if !hasRequiredCertifications then
    nonCompliantMsg
  else if item.contaminationRisk then
    contaminationViolationMsg
  else
    compliesMsg

/-- An evaluator finding; constructors carry the data interpolated into the source
message strings. -/
inductive Alert where
  | expired
  | nearExpiry (hoursRemaining : Int)
  | contaminationRisk
  | missingCertifications (missing : List String)
deriving Repr, DecidableEq

/-- The exact strings pushed by QualityAssurance.js checkFoodTrustworthiness. -/
def Alert.trustMessage : Alert → String
  | .expired => "Food item has expired."
  | .nearExpiry h =>
      ("Food item is nearing expiration (") ++ toString h ++ (" hours remaining).")
  | .contaminationRisk => "Food item has a contamination risk."
  | .missingCertifications ms =>
      ("Missing required certifications: ") ++ String.intercalate (", ") ms

/-- The exact strings pushed by FoodQualityAlerts.js checkQualityIssues. -/
def Alert.qualityMessage : Alert → String
  | .expired => "Food item has expired."
  | .nearExpiry h =>
      ("Food item is nearing expiration (") ++ toString h ++ (" hours remaining).")
  | .contaminationRisk => "Food item has contamination risk."
  | .missingCertifications ms =>
      ("Missing required certifications: ") ++ String.intercalate (", ") ms

/-- QualityAssurance.js, checkFoodTrustworthiness (lines 31-51).
moment(freshnessExpiryDate).diff(now, "hours") truncates toward zero (Int.tdiv). -/
def checkFoodTrustworthiness (item : FoodItem) (now : Int) : List Alert :=
  let freshnessExpiry := momentOf item.freshnessExpiryDate now
  let hoursUntilExpiry := Int.tdiv (freshnessExpiry - now) msPerHour
  (if hoursUntilExpiry < 0 then [Alert.expired]
   else if hoursUntilExpiry < 24 then [Alert.nearExpiry hoursUntilExpiry]
   else [])
  ++ (if item.contaminationRisk then [Alert.contaminationRisk] else [])

/-- FoodQualityAlerts.js line 53: the required certifications absent from the record. -/
def missingCertificationsOf (item : FoodItem) : List String :=
  requiredCertifications.filter (fun cert => !(item.safetyCertifications.contains cert))

/-- FoodQualityAlerts.js, checkQualityIssues (lines 36-59).
expiryDate.isBefore(currentDate) is a strict comparison; an absent date behaves as
the current instant and is therefore not before it. -/
def checkQualityIssues (item : FoodItem) (now : Int) : List Alert :=
  (if item.contaminationRisk then [Alert.contaminationRisk] else [])
  ++ (if momentOf item.freshnessExpiryDate now < now then [Alert.expired] else [])
  ++ (if 0 < (missingCertificationsOf item).length
      then [Alert.missingCertifications (missingCertificationsOf item)] else [])

/-- The request body of the POST handlers: any subset of schema fields may be supplied. -/
structure FoodUpdate where
  foodItem : Option String := none
  origin : Option String := none
  qualityCheckDate : Option Int := none
  freshnessExpiryDate : Option Int := none
  safetyCertifications : Option (List String) := none
  contaminationRisk : Option Bool := none
  traceId : Option String := none
  complianceStatus : Option Bool := none
  qualityIssue : Option Bool := none
  lastUpdated : Option Int := none
deriving Repr, DecidableEq

/-- The update document built by all three POST handlers:
findOneAndUpdate(criteria, spread of updatedData with lastUpdated replaced by Date.now()).
Every supplied body field overwrites the stored one; lastUpdated is always the server
time because the object literal lists it after the spread. -/
def mergeUpdate (stored : FoodItem) (upd : FoodUpdate) (now : Int) : FoodItem where
  foodItem := upd.foodItem.getD stored.foodItem
  origin := upd.origin.getD stored.origin
  qualityCheckDate := upd.qualityCheckDate.getD stored.qualityCheckDate
  freshnessExpiryDate :=
    match upd.freshnessExpiryDate with
    | some d => some d
    | none => stored.freshnessExpiryDate
  safetyCertifications := upd.safetyCertifications.getD stored.safetyCertifications
  contaminationRisk := upd.contaminationRisk.getD stored.contaminationRisk
  traceId := upd.traceId.getD stored.traceId
  complianceStatus := upd.complianceStatus.getD stored.complianceStatus
  qualityIssue := upd.qualityIssue.getD stored.qualityIssue
  lastUpdated := now

/-- Responses of the FoodRegulatoryComplianceSystem.js handlers. -/
inductive ComplianceResponse where
  | notFound (error : String)
  | nonCompliant (error : String) (complianceStatus : String)
  | ok (item : FoodItem) (complianceStatus : String) (message : Option String)
deriving Repr, DecidableEq

/-- HTTP status sent with each ComplianceResponse. -/
def ComplianceResponse.status : ComplianceResponse → Nat
  | .notFound _ => 404
  | .nonCompliant _ _ => 400
  | .ok _ _ _ => 200

/-- FoodRegulatoryComplianceSystem.js GET handler (lines 55-91), given the record
found for the trace id (none when absent). -/
def complianceGet (found : Option FoodItem) : ComplianceResponse :=
  match found with
  | none => .notFound ("Food item not found.")
  | some item =>
    let complianceStatus := checkRegulatoryCompliance item
    if complianceStatus ≠ compliesMsg then
      .nonCompliant ("Food item is not compliant with regulatory standards.") complianceStatus
    else
      .ok item compliesMsg none

/-- FoodRegulatoryComplianceSystem.js POST handler (lines 94-135), given the stored
record for the trace id, the request body and the server time. -/
def complianceUpdate (stored : Option FoodItem) (upd : FoodUpdate) (now : Int) :
    ComplianceResponse :=
  match stored with
  | none => .notFound ("Food item not found.")
  | some s =>
    let item := mergeUpdate s upd now
    let complianceStatus := checkRegulatoryCompliance item
    if complianceStatus ≠ compliesMsg then
      .nonCompliant ("Food item is not compliant with regulatory standards.") complianceStatus
    else
      .ok item compliesMsg
        (some ("Food item traceability and compliance information updated successfully."))

/-- Responses of the QualityAssurance.js handlers. -/
inductive TrustResponse where
  | notFound (error : String)
  | qualityConcerns (error : String) (contaminationAlerts : List Alert)
  | ok (item : FoodItem) (message : String)
deriving Repr, DecidableEq

/-- HTTP status sent with each TrustResponse. -/
def TrustResponse.status : TrustResponse → Nat
  | .notFound _ => 404
  | .qualityConcerns _ _ => 400
  | .ok _ _ => 200

/-- QualityAssurance.js GET handler (lines 54-90). -/
def trustGet (found : Option FoodItem) (now : Int) : TrustResponse :=
  match found with
  | none => .notFound ("Food item not found.")
  | some item =>
    let contaminationAlerts := checkFoodTrustworthiness item now
    if 0 < contaminationAlerts.length then
      .qualityConcerns ("Food item has quality concerns.") contaminationAlerts
    else
      .ok item ("Food item is safe and trustworthy.")

/-- QualityAssurance.js POST handler (lines 93-133). -/
def trustUpdate (stored : Option FoodItem) (upd : FoodUpdate) (now : Int) : TrustResponse :=
  match stored with
  | none => .notFound ("Food item not found.")
  | some s =>
    let item := mergeUpdate s upd now
    let contaminationAlerts := checkFoodTrustworthiness item now
    if 0 < contaminationAlerts.length then
      .qualityConcerns ("Food item has quality concerns.") contaminationAlerts
    else
      .ok item ("Food item traceability updated successfully.")

/-- Responses of the FoodQualityAlerts.js handlers; notified records whether
notifyQualityIssue (the socket broadcast) ran. -/
inductive QualityResponse where
  | notFound (error : String)
  | ok (item : FoodItem) (qualityAlerts : List Alert) (notified : Bool) (message : Option String)
deriving Repr, DecidableEq

/-- HTTP status sent with each QualityResponse. -/
def QualityResponse.status : QualityResponse → Nat
  | .notFound _ => 404
  | .ok _ _ _ _ => 200

/-- FoodQualityAlerts.js GET handler (lines 75-109). -/
def qualityGet (found : Option FoodItem) (now : Int) : QualityResponse :=
  match found with
  | none => .notFound ("Food item not found.")
  | some item =>
    let qualityAlerts := checkQualityIssues item now
    .ok item qualityAlerts (decide (0 < qualityAlerts.length)) none

/-- FoodQualityAlerts.js POST handler (lines 112-151). -/
def qualityUpdate (stored : Option FoodItem) (upd : FoodUpdate) (now : Int) : QualityResponse :=
  match stored with
  | none => .notFound ("Food item not found.")
  | some s =>
    let item := mergeUpdate s upd now
    let qualityAlerts := checkQualityIssues item now
    .ok item qualityAlerts (decide (0 < qualityAlerts.length))
      (some ("Food item traceability and quality information updated successfully."))

/-- The reasons sequence described by spec section 4.1 for ComplianceEvaluator: one
reason per missing required certification, then one reason on contamination risk.
This definition follows the specification wording, for comparison with the source
function checkRegulatoryCompliance. -/
def specComplianceReasons (item : FoodItem) : List String :=
  (missingCertificationsOf item).map (fun cert => ("missing ") ++ cert)
  ++ (if item.contaminationRisk then [("contamination risk")] else [])

/-- The reasons checkRegulatoryCompliance actually communicates to its caller: its
single returned message when that message is not the compliant one, nothing otherwise. -/
def codeReportedReasons (item : FoodItem) : List String :=
  if checkRegulatoryCompliance item = compliesMsg then []
  else [checkRegulatoryCompliance item]

/-- Recognizer for near-expiry alerts. -/
def Alert.isNearExpiry : Alert → Bool
  | .nearExpiry _ => true
  | _ => false

/-- A concrete record with no expiry date, no certifications and no contamination risk. -/
def baseItem : FoodItem where
  foodItem := "Milk"
  origin := "FarmA"
  qualityCheckDate := 0
  freshnessExpiryDate := none
  safetyCertifications := []
  contaminationRisk := false
  traceId := "T1"
  complianceStatus := false
  qualityIssue := false
  lastUpdated := 0

/-- Truncating hour division is negative exactly when the difference is a full hour or
more in the past. -/
theorem tdiv_msPerHour_neg_iff (x : Int) :
    Int.tdiv x msPerHour < 0 ↔ x ≤ -msPerHour := by
  rcases le_or_lt 0 x with h0 | h0
  · have h1 : 0 ≤ Int.tdiv x msPerHour := Int.tdiv_nonneg h0 (by decide)
    constructor
    · intro h2
      omega
    · intro h2
      simp only [msPerHour] at h2
      omega
  · have hx : x = -(-x) := by ring
    have hrw : Int.tdiv x msPerHour = -(Int.tdiv (-x) msPerHour) := by
      conv_lhs => rw [hx]
      rw [Int.neg_tdiv]
    have h2 : Int.tdiv (-x) msPerHour = (-x) / msPerHour :=
      Int.tdiv_eq_ediv (by omega) (by decide)
    rw [hrw, h2]
    simp only [msPerHour]
    omega

/-- On a nonnegative difference, truncating hour division agrees with floor division. -/
theorem tdiv_msPerHour_nonneg {x : Int} (h0 : 0 ≤ x) :
    Int.tdiv x msPerHour = x / msPerHour :=
  Int.tdiv_eq_ediv h0 (by decide)

/-- The missing-certification list is empty exactly when the record passes the
required-certifications test of checkRegulatoryCompliance. -/
theorem missing_eq_nil_iff (item : FoodItem) :
    missingCertificationsOf item = [] ↔
      (requiredCertifications.all
        (fun cert => item.safetyCertifications.contains cert)) = true := by
  simp [missingCertificationsOf, List.filter_eq_nil_iff, List.all_eq_true]

/-- Membership in the missing-certification list. -/
theorem mem_missingCertificationsOf (item : FoodItem) (cert : String) :
    cert ∈ missingCertificationsOf item ↔
      cert ∈ requiredCertifications ∧ cert ∉ item.safetyCertifications := by
  simp [missingCertificationsOf, List.mem_filter]

/-- When a required certification is missing, checkRegulatoryCompliance returns the
missing-certification message (its first branch). -/
theorem checkRegulatoryCompliance_missing (item : FoodItem)
    (h : missingCertificationsOf item ≠ []) :
    checkRegulatoryCompliance item = nonCompliantMsg := by
  have hall : (requiredCertifications.all
      (fun cert => item.safetyCertifications.contains cert)) = false := by
    rcases Bool.eq_false_or_eq_true (requiredCertifications.all
      (fun cert => item.safetyCertifications.contains cert)) with h1 | h1
    · exact absurd ((missing_eq_nil_iff item).mpr h1) h
    · exact h1
  simp only [checkRegulatoryCompliance, hall, Bool.not_false, if_true]

/-- When every required certification is present, checkRegulatoryCompliance decides on
the contamination flag alone. -/
theorem checkRegulatoryCompliance_certified (item : FoodItem)
    (h : missingCertificationsOf item = []) :
    checkRegulatoryCompliance item =
      (if item.contaminationRisk then contaminationViolationMsg else compliesMsg) := by
  have hall := (missing_eq_nil_iff item).mp h
  simp only [checkRegulatoryCompliance, hall, Bool.not_true, Bool.false_eq_true, if_false]

/-- The spec reasons sequence is non-empty exactly when a required certification is
missing or the record carries contamination risk. -/
theorem specComplianceReasons_ne_nil_iff (item : FoodItem) :
    specComplianceReasons item ≠ [] ↔
      missingCertificationsOf item ≠ [] ∨ item.contaminationRisk = true := by
  by_cases hc : item.contaminationRisk <;>
    simp [specComplianceReasons, hc]

/-- Claim C1 as stated: checkRegulatoryCompliance reports non-compliance iff its
collected reasons are non-empty, and it collects one reason per missing required
certification plus one on contamination risk (no short-circuiting), so the number of
reasons it communicates equals that count. -/
def C1Claim : Prop :=
  ∀ item : FoodItem,
    (checkRegulatoryCompliance item ≠ compliesMsg ↔ codeReportedReasons item ≠ []) ∧
    (codeReportedReasons item).length =
      (missingCertificationsOf item).length +
        (if item.contaminationRisk then 1 else 0)

/-- A record missing all three required certifications and carrying contamination risk. -/
def itemAllBad : FoodItem :=
  { baseItem with contaminationRisk := true }

/-- C1 counterexample: on a record missing all three certifications with contamination
risk, the source function communicates a single reason where the claim demands four. -/
theorem C1_counterexample : ¬ C1Claim := by
  intro h
  exact absurd (h itemAllBad).2 (by decide)

/-- C1 (amended): checkRegulatoryCompliance reports non-compliance iff the reasons of
spec section 4.1 are non-empty, but it communicates only a single reason,
short-circuiting: the missing-certification message whenever any required
certification is absent (contamination is then not reported), otherwise the
contamination message exactly on contamination risk. -/
theorem C1_compliance_short_circuits (item : FoodItem) :
    (checkRegulatoryCompliance item ≠ compliesMsg ↔ specComplianceReasons item ≠ []) ∧
    (missingCertificationsOf item ≠ [] →
      checkRegulatoryCompliance item = nonCompliantMsg) ∧
    (missingCertificationsOf item = [] →
      checkRegulatoryCompliance item =
        (if item.contaminationRisk then contaminationViolationMsg else compliesMsg)) := by
  refine ⟨?_, checkRegulatoryCompliance_missing item, checkRegulatoryCompliance_certified item⟩
  rw [specComplianceReasons_ne_nil_iff]
  by_cases hm : missingCertificationsOf item = []
  · rw [checkRegulatoryCompliance_certified item hm]
    by_cases hc : item.contaminationRisk
    · rw [if_pos hc]
      constructor
      · intro _
        exact Or.inr hc
      · intro _
        decide
    · rw [if_neg hc]
      constructor
      · intro h0
        exact absurd rfl h0
      · rintro (h0 | h0)
        · exact absurd hm h0
        · exact absurd h0 hc
  · rw [checkRegulatoryCompliance_missing item hm]
    constructor
    · intro _
      exact Or.inl hm
    · intro _
      decide

/-- C1 amended-claim witness at a concrete record. -/
theorem C1_compliance_short_circuits_witness :
    checkRegulatoryCompliance itemAllBad = nonCompliantMsg :=
  (C1_compliance_short_circuits itemAllBad).2.1 (by decide)

/-- C9: when any required certification is missing, checkRegulatoryCompliance returns
only the missing-certification outcome and never the contamination outcome, even on
contamination risk; the contamination outcome appears exactly when all three required
certifications are present and the risk flag is set; and the function always returns
exactly one of its three fixed message strings (which are pairwise distinct). -/
theorem C9_compliance_outcomes (item : FoodItem) :
    (missingCertificationsOf item ≠ [] →
      checkRegulatoryCompliance item = nonCompliantMsg ∧
      checkRegulatoryCompliance item ≠ contaminationViolationMsg) ∧
    (checkRegulatoryCompliance item = contaminationViolationMsg ↔
      missingCertificationsOf item = [] ∧ item.contaminationRisk = true) ∧
    (checkRegulatoryCompliance item = nonCompliantMsg ∨
      checkRegulatoryCompliance item = contaminationViolationMsg ∨
      checkRegulatoryCompliance item = compliesMsg) ∧
    nonCompliantMsg ≠ contaminationViolationMsg ∧
    nonCompliantMsg ≠ compliesMsg ∧
    contaminationViolationMsg ≠ compliesMsg := by
  refine ⟨?_, ?_, ?_, by decide, by decide, by decide⟩
  · intro hm
    rw [checkRegulatoryCompliance_missing item hm]
    exact ⟨rfl, by decide⟩
  · constructor
    · intro heq
      by_cases hm : missingCertificationsOf item = []
      · refine ⟨hm, ?_⟩
        by_contra hc
        rw [checkRegulatoryCompliance_certified item hm, if_neg hc] at heq
        exact absurd heq (by decide)
      · rw [checkRegulatoryCompliance_missing item hm] at heq
        exact absurd heq (by decide)
    · rintro ⟨hm, hc⟩
      rw [checkRegulatoryCompliance_certified item hm, if_pos hc]
  · by_cases hm : missingCertificationsOf item = []
    · rw [checkRegulatoryCompliance_certified item hm]
      by_cases hc : item.contaminationRisk
      · rw [if_pos hc]
        exact Or.inr (Or.inl rfl)
      · rw [if_neg hc]
        exact Or.inr (Or.inr rfl)
    · rw [checkRegulatoryCompliance_missing item hm]
      exact Or.inl rfl

/-- C9 witness: the contamination outcome at a fully certified record with risk. -/
def itemCertifiedRisk : FoodItem :=
  { baseItem with
      safetyCertifications := [("FDA Approved"), ("FSSAI Certified"), ("ISO 22000")],
      contaminationRisk := true }

/-- C9 witness at concrete records: a record missing certifications with contamination
risk yields the missing-certification message, and a fully certified record with risk
yields the contamination message. -/
theorem C9_compliance_outcomes_witness :
    checkRegulatoryCompliance itemAllBad = nonCompliantMsg ∧
    checkRegulatoryCompliance itemCertifiedRisk = contaminationViolationMsg :=
  ⟨((C9_compliance_outcomes itemAllBad).1 (by decide)).1,
    ((C9_compliance_outcomes itemCertifiedRisk).2.1).mpr ⟨by decide, by decide⟩⟩

/-- Claim C3 as stated: on an absent freshnessExpiryDate the trustworthiness
evaluation fails instead of producing an alert sequence.  checkFoodTrustworthiness
has no failure path at all (it is a total function into alert lists), so the claim is
formalized by its weakest consequence: such an evaluation yields no alert sequence. -/
def C3Claim : Prop :=
  ∀ (item : FoodItem) (now : Int),
    item.freshnessExpiryDate = none → checkFoodTrustworthiness item now = []

/-- C3 counterexample: a record with no expiry date is evaluated normally and yields a
near-expiry alert. -/
theorem C3_counterexample : ¬ C3Claim := by
  intro h
  exact absurd (h baseItem 0 rfl) (by decide)

/-- C3 (amended): on an absent freshnessExpiryDate checkFoodTrustworthiness does not
fail; moment(undefined) equals the current instant, so it returns a NearExpiry alert
with 0 hours remaining, followed by the contamination alert when the risk flag is
set. -/
theorem C3_absent_date_near_expiry (item : FoodItem) (now : Int)
    (h : item.freshnessExpiryDate = none) :
    checkFoodTrustworthiness item now =
      Alert.nearExpiry 0 ::
        (if item.contaminationRisk then [Alert.contaminationRisk] else []) := by
  simp [checkFoodTrustworthiness, momentOf, h]

/-- C3 amended-claim witness at a concrete record. -/
theorem C3_absent_date_near_expiry_witness :
    checkFoodTrustworthiness baseItem 5 =
      Alert.nearExpiry 0 ::
        (if baseItem.contaminationRisk then [Alert.contaminationRisk] else []) :=
  C3_absent_date_near_expiry baseItem 5 rfl

/-- Claim C4 as stated: any expiry instant strictly before the evaluation time makes
checkFoodTrustworthiness emit Expired and no NearExpiry alert. -/
def C4Claim : Prop :=
  ∀ (item : FoodItem) (now e : Int),
    item.freshnessExpiryDate = some e → e < now →
      Alert.expired ∈ checkFoodTrustworthiness item now ∧
      (checkFoodTrustworthiness item now).filter Alert.isNearExpiry = []

/-- A record whose expiry date is the epoch instant. -/
def itemExpiryEpoch : FoodItem :=
  { baseItem with freshnessExpiryDate := some 0 }

/-- C4 counterexample: an expiry one millisecond in the past truncates to 0 whole
hours, so the source emits NearExpiry (0 hours remaining) and no Expired alert. -/
theorem C4_counterexample : ¬ C4Claim := by
  intro h
  exact absurd ((h itemExpiryEpoch 1 0 rfl (by decide)).1) (by decide)

/-- C4 (amended): an expiry at least one whole hour before the evaluation time makes
checkFoodTrustworthiness emit Expired and no NearExpiry alert (an expiry less than one
hour in the past truncates to 0 hours and is reported as NearExpiry instead). -/
theorem C4_expired_after_full_hour (item : FoodItem) (now e : Int)
    (hdate : item.freshnessExpiryDate = some e) (hpast : e ≤ now - msPerHour) :
    Alert.expired ∈ checkFoodTrustworthiness item now ∧
    (checkFoodTrustworthiness item now).filter Alert.isNearExpiry = [] := by
  have hneg : Int.tdiv (e - now) msPerHour < 0 :=
    (tdiv_msPerHour_neg_iff (e - now)).mpr (by omega)
  cases hc : item.contaminationRisk <;>
    simp [checkFoodTrustworthiness, momentOf, hdate, hneg, hc, Alert.isNearExpiry]

/-- C4 amended-claim witness at a concrete record. -/
theorem C4_expired_after_full_hour_witness :
    Alert.expired ∈ checkFoodTrustworthiness itemExpiryEpoch 3600000 ∧
    (checkFoodTrustworthiness itemExpiryEpoch 3600000).filter Alert.isNearExpiry = [] :=
  C4_expired_after_full_hour itemExpiryEpoch 3600000 0 rfl (by decide)

/-- C5: when the expiry lies in the window from 0 (inclusive) to 24 hours (exclusive)
after the evaluation time, checkFoodTrustworthiness emits exactly one NearExpiry
alert, and that alert carries the whole-hour count of the remaining time (the
truncated hour difference, which on this nonnegative window equals its floor). -/
theorem C5_near_expiry_window (item : FoodItem) (now e : Int)
    (hdate : item.freshnessExpiryDate = some e)
    (h0 : 0 ≤ e - now) (h24 : e - now < 24 * msPerHour) :
    (checkFoodTrustworthiness item now).filter Alert.isNearExpiry =
      [Alert.nearExpiry (Int.tdiv (e - now) msPerHour)] ∧
    Int.tdiv (e - now) msPerHour = (e - now) / msPerHour := by
  have heq := tdiv_msPerHour_nonneg h0
  have hge : 0 ≤ Int.tdiv (e - now) msPerHour := Int.tdiv_nonneg h0 (by decide)
  have hlt : Int.tdiv (e - now) msPerHour < 24 := by
    rw [heq]
    simp only [msPerHour] at h24 ⊢
    omega
  refine ⟨?_, heq⟩
  cases hc : item.contaminationRisk <;>
    simp [checkFoodTrustworthiness, momentOf, hdate, hc, Alert.isNearExpiry,
      not_lt.mpr hge, hlt]

/-- A record expiring five hours and one millisecond after the epoch, with
contamination risk. -/
def itemFiveHours : FoodItem :=
  { baseItem with freshnessExpiryDate := some 18000001, contaminationRisk := true }

/-- C5 witness at a concrete record evaluated at the epoch: exactly one NearExpiry
alert carrying 5 remaining whole hours. -/
theorem C5_near_expiry_window_witness :
    (checkFoodTrustworthiness itemFiveHours 0).filter Alert.isNearExpiry =
      [Alert.nearExpiry (Int.tdiv (18000001 - 0) msPerHour)] ∧
    Int.tdiv (18000001 - 0) msPerHour = (18000001 - 0) / msPerHour :=
  C5_near_expiry_window itemFiveHours 0 18000001 rfl (by decide) (by decide)

/-- C6: the trustworthiness alert sequence is deterministically ordered: it splits
into an expiry-related part (empty, a single Expired, or a single NearExpiry) followed
by the contamination part (exactly the ContaminationRisk alert when the flag is set,
empty otherwise); the contamination alert never occurs in the expiry part, so no other
ordering occurs. -/
theorem C6_alert_order (item : FoodItem) (now : Int) :
    ∃ expiryPart contamPart,
      checkFoodTrustworthiness item now = expiryPart ++ contamPart ∧
      (expiryPart = [] ∨ expiryPart = [Alert.expired] ∨
        ∃ h, expiryPart = [Alert.nearExpiry h]) ∧
      (item.contaminationRisk = true → contamPart = [Alert.contaminationRisk]) ∧
      (item.contaminationRisk = false → contamPart = []) ∧
      Alert.contaminationRisk ∉ expiryPart := by
  refine ⟨(if Int.tdiv (momentOf item.freshnessExpiryDate now - now) msPerHour < 0
      then [Alert.expired]
      else if Int.tdiv (momentOf item.freshnessExpiryDate now - now) msPerHour < 24
      then [Alert.nearExpiry
        (Int.tdiv (momentOf item.freshnessExpiryDate now - now) msPerHour)]
      else []),
    (if item.contaminationRisk then [Alert.contaminationRisk] else []),
    rfl, ?_, ?_, ?_, ?_⟩
  · split_ifs with h1 h2
    · exact Or.inr (Or.inl rfl)
    · exact Or.inr (Or.inr ⟨_, rfl⟩)
    · exact Or.inl rfl
  · intro hc
    rw [if_pos hc]
  · intro hc
    rw [if_neg (by simp [hc])]
  · split_ifs <;> simp

/-- C6 witness: instantiation at a concrete record with both alert kinds present. -/
theorem C6_alert_order_witness :
    ∃ expiryPart contamPart,
      checkFoodTrustworthiness itemFiveHours 0 = expiryPart ++ contamPart ∧
      (expiryPart = [] ∨ expiryPart = [Alert.expired] ∨
        ∃ h, expiryPart = [Alert.nearExpiry h]) ∧
      (itemFiveHours.contaminationRisk = true → contamPart = [Alert.contaminationRisk]) ∧
      (itemFiveHours.contaminationRisk = false → contamPart = []) ∧
      Alert.contaminationRisk ∉ expiryPart :=
  C6_alert_order itemFiveHours 0

/-- C7: checkQualityIssues returns exactly, in this fixed order, the contamination
alert when the risk flag is set, then the Expired alert exactly when a present
freshnessExpiryDate lies before the evaluation time (an absent date is never
expired), then a single MissingCertification alert listing precisely the required
certifications absent from the record (and nothing when none is missing). -/
theorem C7_quality_alert_union (item : FoodItem) (now : Int) :
    checkQualityIssues item now =
      (if item.contaminationRisk then [Alert.contaminationRisk] else [])
      ++ (if momentOf item.freshnessExpiryDate now < now then [Alert.expired] else [])
      ++ (if missingCertificationsOf item = [] then []
          else [Alert.missingCertifications (missingCertificationsOf item)]) ∧
    (momentOf item.freshnessExpiryDate now < now ↔
      ∃ e, item.freshnessExpiryDate = some e ∧ e < now) ∧
    (∀ cert, cert ∈ missingCertificationsOf item ↔
      cert ∈ requiredCertifications ∧ cert ∉ item.safetyCertifications) := by
  refine ⟨?_, ?_, mem_missingCertificationsOf item⟩
  · simp only [checkQualityIssues]
    by_cases hm : missingCertificationsOf item = []
    · simp [hm]
    · simp [hm, List.length_pos.mpr hm]
  · cases hd : item.freshnessExpiryDate <;> simp [momentOf, hd]

/-- C7 witness: instantiation at a concrete record missing all certifications with
contamination risk and no expiry date. -/
theorem C7_quality_alert_union_witness :
    checkQualityIssues itemAllBad 0 =
      (if itemAllBad.contaminationRisk then [Alert.contaminationRisk] else [])
      ++ (if momentOf itemAllBad.freshnessExpiryDate 0 < 0 then [Alert.expired] else [])
      ++ (if missingCertificationsOf itemAllBad = [] then []
          else [Alert.missingCertifications (missingCertificationsOf itemAllBad)]) ∧
    (momentOf itemAllBad.freshnessExpiryDate 0 < 0 ↔
      ∃ e, itemAllBad.freshnessExpiryDate = some e ∧ e < 0) ∧
    (∀ cert, cert ∈ missingCertificationsOf itemAllBad ↔
      cert ∈ requiredCertifications ∧ cert ∉ itemAllBad.safetyCertifications) :=
  C7_quality_alert_union itemAllBad 0

/-- Claim C2 as stated: in all three services, for every record found by the GET or
POST handler, a non-compliant or alert-producing evaluation is still returned with a
successful (200) response. -/
def C2Claim : Prop :=
  (∀ item : FoodItem, checkRegulatoryCompliance item ≠ compliesMsg →
    (complianceGet (some item)).status = 200) ∧
  (∀ (item : FoodItem) (now : Int), checkFoodTrustworthiness item now ≠ [] →
    (trustGet (some item) now).status = 200) ∧
  (∀ (item : FoodItem) (now : Int), checkQualityIssues item now ≠ [] →
    (qualityGet (some item) now).status = 200) ∧
  (∀ (s : FoodItem) (upd : FoodUpdate) (now : Int),
    checkRegulatoryCompliance (mergeUpdate s upd now) ≠ compliesMsg →
    (complianceUpdate (some s) upd now).status = 200) ∧
  (∀ (s : FoodItem) (upd : FoodUpdate) (now : Int),
    checkFoodTrustworthiness (mergeUpdate s upd now) now ≠ [] →
    (trustUpdate (some s) upd now).status = 200) ∧
  (∀ (s : FoodItem) (upd : FoodUpdate) (now : Int),
    checkQualityIssues (mergeUpdate s upd now) now ≠ [] →
    (qualityUpdate (some s) upd now).status = 200)

/-- C2 counterexample: the FoodRegulatoryComplianceSystem.js GET handler answers a
found but non-compliant record with a 400 error response, not a 200 payload. -/
theorem C2_counterexample : ¬ C2Claim := by
  intro h
  exact absurd (h.1 itemAllBad (by decide)) (by decide)

/-- C2 (amended): only FoodQualityAlerts.js treats adverse evaluations as successful
payload data: its handlers always answer a found record with 200 carrying the computed
qualityAlerts.  FoodRegulatoryComplianceSystem.js and QualityAssurance.js turn a
non-compliant or alert-producing evaluation into a 400 error response (which still
carries the evaluation result in the error body). -/
theorem C2_evaluation_outcomes (item s : FoodItem) (upd : FoodUpdate) (now : Int) :
    (qualityGet (some item) now =
      QualityResponse.ok item (checkQualityIssues item now)
        (decide (0 < (checkQualityIssues item now).length)) none) ∧
    (qualityGet (some item) now).status = 200 ∧
    (qualityUpdate (some s) upd now).status = 200 ∧
    (checkRegulatoryCompliance item ≠ compliesMsg →
      complianceGet (some item) =
        ComplianceResponse.nonCompliant
          ("Food item is not compliant with regulatory standards.")
          (checkRegulatoryCompliance item) ∧
      (complianceGet (some item)).status = 400) ∧
    (checkFoodTrustworthiness item now ≠ [] →
      trustGet (some item) now =
        TrustResponse.qualityConcerns ("Food item has quality concerns.")
          (checkFoodTrustworthiness item now) ∧
      (trustGet (some item) now).status = 400) ∧
    (checkRegulatoryCompliance (mergeUpdate s upd now) ≠ compliesMsg →
      (complianceUpdate (some s) upd now).status = 400) ∧
    (checkFoodTrustworthiness (mergeUpdate s upd now) now ≠ [] →
      (trustUpdate (some s) upd now).status = 400) := by
  refine ⟨rfl, rfl, rfl, ?_, ?_, ?_, ?_⟩
  · intro h
    constructor
    · simp [complianceGet, h]
    · simp [complianceGet, h, ComplianceResponse.status]
  · intro h
    constructor
    · simp [trustGet, List.length_pos.mpr h]
    · simp [trustGet, List.length_pos.mpr h, TrustResponse.status]
  · intro h
    simp [complianceUpdate, h, ComplianceResponse.status]
  · intro h
    simp [trustUpdate, List.length_pos.mpr h, TrustResponse.status]

/-- C2 amended-claim witness at a concrete non-compliant, alert-producing record. -/
theorem C2_evaluation_outcomes_witness :
    (complianceGet (some itemAllBad)).status = 400 ∧
    (trustGet (some itemAllBad) 0).status = 400 :=
  ⟨((C2_evaluation_outcomes itemAllBad baseItem {} 0).2.2.2.1 (by decide)).2,
    ((C2_evaluation_outcomes itemAllBad baseItem {} 0).2.2.2.2.1 (by decide)).2⟩

/-- A client update body that tries to set the derived status fields directly. -/
def updDerived : FoodUpdate :=
  { complianceStatus := some true, qualityIssue := some true }

/-- C8: evaluation of the code at the failing input.  The POST handlers spread the
client body into the update document, so a client-supplied complianceStatus or
qualityIssue is stored verbatim: on a record whose derived fields are false, the
update body of updDerived flips both to true without any evaluation. -/
theorem C8_merge_stores_client_derived_fields :
    baseItem.complianceStatus = false ∧
    baseItem.qualityIssue = false ∧
    (mergeUpdate baseItem updDerived 99).complianceStatus = true ∧
    (mergeUpdate baseItem updDerived 99).qualityIssue = true := by
  decide

/-- C10: after any accepted update merge, lastUpdated is the server time now, even
when the client supplied a lastUpdated value; every other supplied field is merged
exactly as given. -/
theorem C10_merge_frame (stored : FoodItem) (upd : FoodUpdate) (now : Int) :
    (mergeUpdate stored upd now).lastUpdated = now ∧
    (∀ v, upd.foodItem = some v → (mergeUpdate stored upd now).foodItem = v) ∧
    (∀ v, upd.origin = some v → (mergeUpdate stored upd now).origin = v) ∧
    (∀ v, upd.qualityCheckDate = some v →
      (mergeUpdate stored upd now).qualityCheckDate = v) ∧
    (∀ v, upd.freshnessExpiryDate = some v →
      (mergeUpdate stored upd now).freshnessExpiryDate = some v) ∧
    (∀ v, upd.safetyCertifications = some v →
      (mergeUpdate stored upd now).safetyCertifications = v) ∧
    (∀ v, upd.contaminationRisk = some v →
      (mergeUpdate stored upd now).contaminationRisk = v) ∧
    (∀ v, upd.traceId = some v → (mergeUpdate stored upd now).traceId = v) ∧
    (∀ v, upd.complianceStatus = some v →
      (mergeUpdate stored upd now).complianceStatus = v) ∧
    (∀ v, upd.qualityIssue = some v → (mergeUpdate stored upd now).qualityIssue = v) := by
  refine ⟨rfl, ?_, ?_, ?_, ?_, ?_, ?_, ?_, ?_, ?_⟩ <;>
    intro v hv <;> simp [mergeUpdate, hv]

/-- A client update body supplying an ordinary field and a stale lastUpdated. -/
def updOriginStale : FoodUpdate :=
  { origin := some ("FarmX"), lastUpdated := some 123 }

/-- C10 witness: the client-supplied lastUpdated of 123 is overridden by the server
time 7; the supplied origin is stored as given. -/
theorem C10_merge_frame_witness :
    (mergeUpdate baseItem updOriginStale 7).lastUpdated = 7 ∧
    (mergeUpdate baseItem updOriginStale 7).origin = ("FarmX") :=
  ⟨(C10_merge_frame baseItem updOriginStale 7).1,
    (C10_merge_frame baseItem updOriginStale 7).2.2.1 ("FarmX") rfl⟩
